import Mathlib

/-!
Shallow embedding of the build-step orchestration core of the
compiler-explorer repository (src/lib/compilers/sail.ts and
src/lib/compilers/kotlin.ts), together with theorems settling the
specification claims about it.

External process execution is modelled by an oracle: a function that, given
the number of steps already run, the program and its argument list, returns
the raw outcome of that process invocation.  Machinery of the shared base
class (`doBuildstepAndAddToResult`, the executable memoizer) lives outside
the provided sources and is modelled from the specification where needed;
each such definition is marked in its doc comment.
-/

/-- Raw outcome of one external process invocation, as returned by the
Process Runner: exit code, stdout/stderr line streams, timeout flag.
stdout lines are modelled as their `text` field. -/
structure RawResult where
  code : Int
  stdout : List String
  stderr : List String
  timedOut : Bool
deriving Repr, DecidableEq

/-- Oracle for the Process Runner: maps (number of steps already run,
program, argument list) to the raw outcome of that invocation. -/
def ExecEnv : Type := Nat → String → List String → RawResult

/-- One StepResult appended to `buildsteps`: the step label together with
the raw outcome of its process invocation. -/
structure StepResult where
  step : String
  code : Int
  stdout : List String
  stderr : List String
  timedOut : Bool
deriving Repr, DecidableEq

/-- The cumulative `CompilationResult` accumulator built by
`SailCompiler.runCompiler` (`fullResult` in the source). -/
structure FullResult where
  code : Int
  timedOut : Bool
  stdout : List String
  stderr : List String
  buildsteps : List StepResult
  inputFilename : String
  executableFilename : Option String := none
deriving Repr, DecidableEq

/-- The StepResult recorded for a step: the raw process outcome tagged
with the step label (`{...stepResult, step: name}` in the source). -/
def StepResult.ofRaw (name : String) (raw : RawResult) : StepResult :=
  { step := name, code := raw.code, stdout := raw.stdout,
    stderr := raw.stderr, timedOut := raw.timedOut }

/-- Modelled from the spec: `doBuildstepAndAddToResult` lives in
`base-compiler.ts`, outside the provided sources.  Per spec section 4.1 it
runs the step, appends its StepResult to `buildsteps`, merges stdout/stderr
into the aggregated fields, sets the overall exit code when the step exits
non-zero, and propagates a timeout.  The oracle is consulted at the index
equal to the number of steps run so far. -/
def doBuildstepAndAddToResult (env : ExecEnv) (result : FullResult)
    (name : String) (command : String) (args : List String) :
    FullResult × StepResult :=
  let raw := env result.buildsteps.length command args
  let stepResult := StepResult.ofRaw name raw
  ({ result with
      buildsteps := result.buildsteps ++ [stepResult],
      stdout := result.stdout ++ stepResult.stdout,
      stderr := result.stderr ++ stepResult.stderr,
      code := if stepResult.code ≠ 0 then stepResult.code else result.code,
      timedOut := result.timedOut || stepResult.timedOut },
   stepResult)

/-- The `binary` field of ParseFiltersAndOutputOptions, an optional
tri-state flag in the source (`filters?.binary`). -/
structure ParseFiltersAndOutputOptions where
  binary : Option Bool
deriving Repr, DecidableEq

/-- The source condition `filters?.binary === true`: the filters object is
present and its `binary` field is exactly `true`. -/
def binaryRequested (filters : Option ParseFiltersAndOutputOptions) : Bool :=
  match filters with
  | some f => f.binary == some true
  | none => false

namespace SailCompiler

/-- The field `this.outputFilebase`, set to the string `model` in the
SailCompiler constructor. -/
def outputFilebase : String := "model"

/-- The argument list of the final `cc` invocation (sail.ts lines
106-116), parameterized by the Sail installation directory probed by the
previous step. -/
def ccArgs (sailDir : String) : List String :=
  [outputFilebase ++ ".c",
   "-I", sailDir ++ "/lib",
   sailDir ++ "/lib/elf.c",
   sailDir ++ "/lib/rts.c",
   sailDir ++ "/lib/sail.c",
   sailDir ++ "/lib/sail_failure.c",
   "-lz",
   "-lgmp",
   "-o", outputFilebase ++ ".exe"]

/-- Embedding of `SailCompiler.runCompiler` (sail.ts lines 50-121).
Execution options handling (customCwd defaulting) only shapes the oracle's
environment and is absorbed into `env`. -/
def runCompiler (env : ExecEnv) (compiler : String) (options : List String)
    (inputFilename : String) (filters : Option ParseFiltersAndOutputOptions) :
    FullResult :=
  let fullResult : FullResult :=
    { code := 0, timedOut := false, stdout := [], stderr := [],
      buildsteps := [], inputFilename := inputFilename }
  let p1 := doBuildstepAndAddToResult env fullResult "Sail to C" compiler
    (options ++ ["-o", outputFilebase])
  if p1.2.code ≠ 0 ∨ binaryRequested filters ≠ true then p1.1
  else
    let r1 := { p1.1 with executableFilename := some (inputFilename ++ ".exe") }
    let p2 := doBuildstepAndAddToResult env r1 "Get Sail dir" compiler ["-dir"]
    if p2.2.code ≠ 0 then p2.1
    else
      let sailDir := (String.intercalate "\n" p2.2.stdout).trim
      let p3 := doBuildstepAndAddToResult env p2.1 "C to binary" "cc" (ccArgs sailDir)
      p3.1

/-- Models the platform path joiner used by the resolvers
(`path.join(dirPath, name)`), an external collaborator: joins the two
segments with a separator, degenerating gracefully on empty segments. -/
def pathJoin (dirPath : String) (name : String) : String :=
  if dirPath = "" then name
  else if name = "" then dirPath
  else dirPath ++ "/" ++ name

/-- Embedding of `SailCompiler.getOutputFilename` (sail.ts lines 123-125):
the joined path of the directory and the base name with suffix `.c`. -/
def getOutputFilename (dirPath : String) (outputFilebase : String) : String :=
  pathJoin dirPath (outputFilebase ++ ".c")

/-- Embedding of `SailCompiler.getExecutableFilename` (sail.ts lines
127-129): the joined path of the directory and the base name with suffix
`.exe`. -/
def getExecutableFilename (dirPath : String) (outputFilebase : String) : String :=
  pathJoin dirPath (outputFilebase ++ ".exe")

/-- A selected library version, as passed to the shared-library argument
resolver; its fields are irrelevant to the Sail override. -/
structure SelectedLibraryVersion where
  name : String
  version : String
deriving Repr, DecidableEq

/-- Embedding of `SailCompiler.getSharedLibraryPathsAsArguments` (sail.ts
lines 131-139): the Sail variant suppresses the `-L./lib` convention and
returns no arguments at all. -/
def getSharedLibraryPathsAsArguments (libraries : List SelectedLibraryVersion)
    (libDownloadPath : Option String) (toolchainPath : Option String)
    (dirPath : String) : List String :=
  []

end SailCompiler

/-- The canonical compilation cache key (`CacheKey`): source text, options,
selected library versions and backend identifier, per spec section 3. -/
structure CacheKey where
  source : String
  options : List String
  libraries : List String
  backend : String
deriving Repr, DecidableEq

/-- The cache-bypass enum of the source; `handleInterpreting` always
passes the no-bypass constructor (`BypassCache.None` in the source,
`noBypass` here). -/
inductive BypassCache where
  | noBypass
  | compilation
  | execution
deriving Repr, DecidableEq

/-- A cached build outcome as consumed by `handleInterpreting`: exit code,
captured output, and the directory holding the produced artifact.  The
directory is optional in the source type, guarded there by
`assert(compileResult.dirPath !== undefined)`. -/
structure CachedBuild where
  code : Int
  stdout : List String
  stderr : List String
  dirPath : Option String
deriving Repr, DecidableEq

/-- Outcome of running the produced artifact (`runExecutable`). -/
structure ExecResult where
  code : Int
  stdout : List String
  stderr : List String
  timedOut : Bool
deriving Repr, DecidableEq

/-- The result shape returned by `handleInterpreting`. -/
structure InterpResult where
  stdout : List String
  stderr : List String
  code : Int
  didExecute : Bool
  buildResult : CachedBuild
  timedOut : Bool
deriving Repr, DecidableEq

/-- A recorded `runExecutable` invocation: the runtime argument list placed
into `executeParameters.args` and the working directory. -/
structure SpawnCall where
  args : List String
  dirPath : String
deriving Repr, DecidableEq

/-- Oracles consumed by `handleInterpreting` for behavior living outside
the provided sources: the executable memoizer (`getOrBuildExecutable` and
`getExecutableHash`, both in `base-compiler.ts` / the environment) and the
process spawner (`runExecutable`). -/
structure InterpEnv where
  getOrBuildExecutable : CacheKey → BypassCache → String → CachedBuild
  getExecutableHash : CacheKey → String
  runExecutable : List String → String → ExecResult

/-- Full account of one `handleInterpreting` call: the altered key handed
to the memoizer, the `runExecutable` invocation if one happened, and the
returned result (`Except.error` models the `assert` throwing). -/
structure InterpOutcome where
  memoKey : CacheKey
  spawned : Option SpawnCall
  result : Except String InterpResult

namespace KotlinCompiler

/-- The packaging options hardcoded into the altered key (kotlin.ts lines
141-144): produce a runnable jar including the runtime. -/
def packagingOptions : List String := ["-include-runtime", "-d", "example.jar"]

/-- The JVM runtime-tuning arguments prepended by `handleInterpreting`
(kotlin.ts lines 160-164). -/
def javaTuningArgs : List String :=
  ["-Xss136K",
   "-XX:CICompilerCount=2",
   "-XX:-UseDynamicNumberOfCompilerThreads",
   "-XX:-UseDynamicNumberOfGCThreads",
   "-XX:+UseSerialGC"]

/-- Embedding of `KotlinCompiler.handleInterpreting` (kotlin.ts lines
137-180): build (or fetch) the jar via the memoizer under the altered key,
assert the build directory is present, refuse to execute a failed build,
otherwise run `java` with tuning args, classpath and `-jar example.jar`
ahead of the user-supplied program arguments. -/
def handleInterpreting (env : InterpEnv) (key : CacheKey)
    (executeArgs : List String) : InterpOutcome :=
  let alteredKey := { key with options := packagingOptions }
  let executablePackageHash := env.getExecutableHash key
  let compileResult :=
    env.getOrBuildExecutable alteredKey BypassCache.noBypass executablePackageHash
  match compileResult.dirPath with
  | none =>
    { memoKey := alteredKey, spawned := none,
      result := Except.error "assertion failed: compileResult.dirPath !== undefined" }
  | some dirPath =>
    if compileResult.code ≠ 0 then
      { memoKey := alteredKey, spawned := none,
        result := Except.ok
          { stdout := compileResult.stdout,
            stderr := compileResult.stderr,
            code := compileResult.code,
            didExecute := false,
            buildResult := compileResult,
            timedOut := false } }
    else
      let args := javaTuningArgs ++ ["-cp", dirPath, "-jar", "example.jar"]
        ++ executeArgs
      let execResult := env.runExecutable args dirPath
      { memoKey := alteredKey, spawned := some { args := args, dirPath := dirPath },
        result := Except.ok
          { stdout := execResult.stdout,
            stderr := execResult.stderr,
            code := execResult.code,
            didExecute := true,
            buildResult := compileResult,
            timedOut := execResult.timedOut } }

/-- Models `String.prototype.endsWith` of JavaScript: whether the string
ends with the given suffix (kotlin.ts line 72). -/
def jsEndsWith (s : String) (suffix : String) : Bool :=
  suffix.data.isSuffixOf s.data

/-- Models `Array.prototype.findIndex` of JavaScript: index of the first
element satisfying the predicate, `-1` when there is none
(kotlin.ts line 71). -/
def jsFindIndex (p : String → Bool) : List String → Int
  | [] => -1
  | x :: xs =>
    if p x then 0
    else if jsFindIndex p xs < 0 then -1 else jsFindIndex p xs + 1

/-- Models index clamping of `Array.prototype.slice`: a negative index
counts from the end of the list, and the result is clamped to
`[0, length]`. -/
def jsSliceBound (len : Nat) (i : Int) : Nat :=
  if i < 0 then ((len : Int) + i).toNat else min i.toNat len

/-- Models `Array.prototype.slice(start, fin)` of JavaScript
(kotlin.ts line 74 uses `options.slice(0, sourceFileOptionIndex)`). -/
def jsSlice (l : List String) (start fin : Int) : List String :=
  (l.take (jsSliceBound l.length fin)).drop (jsSliceBound l.length start)

/-- The user-options extraction of `KotlinCompiler.runCompiler`
(kotlin.ts lines 70-74): everything strictly before the first option
ending in `.kt` — or, when no option ends in `.kt`, `slice(0, -1)`,
dropping the final element. -/
def userOptions (options : List String) : List String :=
  jsSlice options 0 (jsFindIndex (fun option => jsEndsWith option ".kt") options)

/-- Models underscore's `_.compact` on a string list: drops falsy entries,
which for strings are exactly the empty ones (kotlin.ts line 75). -/
def jsCompact (l : List String) : List String :=
  l.filter (fun s => s ≠ "")

/-- The compiler invocation argument list of `KotlinCompiler.runCompiler`
(kotlin.ts line 75): classpath arguments, then the user options, then the
input filename, compacted. -/
def kotlinOptions (classpathArgs : List String) (options : List String)
    (inputFilename : String) : List String :=
  jsCompact (classpathArgs ++ userOptions options ++ [inputFilename])

end KotlinCompiler

/-- Modelled from the spec: the Executable Cache / Compilation Memoizer
behind `getOrBuildExecutable` lives in `base-compiler.ts` and the
environment, outside the provided sources.  Per spec sections 4.3 and 5 it
is a promise-sharing table: a build registers its (shared) outcome under
its key the moment it starts, so a concurrent request for an equal key
attaches to the in-flight entry instead of spawning a second build.
`builds` counts underlying build executions. -/
structure Memoizer where
  table : List (CacheKey × CachedBuild)
  builds : Nat

/-- Modelled from the spec: `getOrBuild(key, bypass=None)` — look the key
up in the promise-sharing table; on a hit share the recorded outcome, on a
miss perform the underlying build, record it, and count it.  Requests that
overlap in time are modelled by the order in which they reach the table. -/
def Memoizer.getOrBuild (build : CacheKey → CachedBuild) (m : Memoizer)
    (key : CacheKey) : Memoizer × CachedBuild :=
  match m.table.lookup key with
  | some cached => (m, cached)
  | none =>
    let fresh := build key
    ({ table := (key, fresh) :: m.table, builds := m.builds + 1 }, fresh)

/-! Concrete oracles used to exercise the definitions on explicit runs. -/

/-- An oracle on which every process invocation succeeds. -/
def envAllSucceed : ExecEnv := fun _ _ _ =>
  { code := 0, stdout := ["/opt/sail"], stderr := [], timedOut := false }

/-- An oracle on which the second process invocation exits with code 7 and
every other invocation succeeds. -/
def envStep2Fails : ExecEnv := fun i _ _ =>
  if i = 1 then { code := 7, stdout := [], stderr := ["probe failed"], timedOut := false }
  else { code := 0, stdout := ["/opt/sail"], stderr := [], timedOut := false }

/-- An oracle on which the third process invocation (the `C to binary`
native-compilation step) exits with code 1 and every other invocation
succeeds. -/
def envStep3Fails : ExecEnv := fun i _ _ =>
  if i = 2 then { code := 1, stdout := [], stderr := ["cc failed"], timedOut := false }
  else { code := 0, stdout := ["/opt/sail"], stderr := [], timedOut := false }

/-- A memoizer/spawner oracle whose cached builds all failed with exit
code 1. -/
def interpEnvFailedBuild : InterpEnv :=
  { getOrBuildExecutable := fun _ _ _ =>
      { code := 1, stdout := ["build out"], stderr := ["build err"], dirPath := some "/tmp/build" },
    getExecutableHash := fun _ => "hash",
    runExecutable := fun _ _ => { code := 0, stdout := [], stderr := [], timedOut := false } }

/-- A memoizer/spawner oracle whose cached builds all succeeded. -/
def interpEnvGoodBuild : InterpEnv :=
  { getOrBuildExecutable := fun _ _ _ =>
      { code := 0, stdout := [], stderr := [], dirPath := some "/tmp/build" },
    getExecutableHash := fun _ => "hash",
    runExecutable := fun _ _ => { code := 0, stdout := ["ran"], stderr := [], timedOut := false } }

/-- A sample compilation key for concrete runs. -/
def sampleKey : CacheKey :=
  { source := "fun main() = println(42)", options := ["-some-user-option"],
    libraries := ["lib1"], backend := "jvm" }

/-- A sample failed cached build for concrete memoizer runs. -/
def sampleFailedBuild : CacheKey → CachedBuild := fun _ =>
  { code := 1, stdout := [], stderr := ["boom"], dirPath := some "/tmp/d" }

/-! ## Characterization lemmas for the Sail pipeline -/

/-- If the Sail-to-C step fails or binary output is not requested, the run
returns after the first step. -/
lemma sail_runCompiler_stop1 (env : ExecEnv) (compiler : String)
    (options : List String) (inputFilename : String)
    (filters : Option ParseFiltersAndOutputOptions)
    (h : (env 0 compiler (options ++ ["-o", SailCompiler.outputFilebase])).code ≠ 0 ∨
      binaryRequested filters = false) :
    SailCompiler.runCompiler env compiler options inputFilename filters =
      { code := if (env 0 compiler (options ++ ["-o", SailCompiler.outputFilebase])).code ≠ 0
                then (env 0 compiler (options ++ ["-o", SailCompiler.outputFilebase])).code
                else 0,
        timedOut := (env 0 compiler (options ++ ["-o", SailCompiler.outputFilebase])).timedOut,
        stdout := (env 0 compiler (options ++ ["-o", SailCompiler.outputFilebase])).stdout,
        stderr := (env 0 compiler (options ++ ["-o", SailCompiler.outputFilebase])).stderr,
        buildsteps := [StepResult.ofRaw "Sail to C"
          (env 0 compiler (options ++ ["-o", SailCompiler.outputFilebase]))],
        inputFilename := inputFilename,
        executableFilename := none } := by
  have h' : (env 0 compiler (options ++ ["-o", SailCompiler.outputFilebase])).code ≠ 0 ∨
      binaryRequested filters ≠ true := by
    rcases h with h | h
    · exact Or.inl h
    · exact Or.inr (by simp [h])
  simp only [SailCompiler.runCompiler, doBuildstepAndAddToResult, StepResult.ofRaw,
    List.length_nil, List.nil_append, Bool.false_or]
  rw [if_pos h']

/-- If the Sail-to-C step succeeds, binary output is requested, and the
directory probe fails, the run returns after the second step with the
executable filename already set. -/
lemma sail_runCompiler_stop2 (env : ExecEnv) (compiler : String)
    (options : List String) (inputFilename : String)
    (filters : Option ParseFiltersAndOutputOptions)
    (h0 : (env 0 compiler (options ++ ["-o", SailCompiler.outputFilebase])).code = 0)
    (hb : binaryRequested filters = true)
    (h1 : (env 1 compiler ["-dir"]).code ≠ 0) :
    SailCompiler.runCompiler env compiler options inputFilename filters =
      { code := (env 1 compiler ["-dir"]).code,
        timedOut := (env 0 compiler (options ++ ["-o", SailCompiler.outputFilebase])).timedOut
          || (env 1 compiler ["-dir"]).timedOut,
        stdout := (env 0 compiler (options ++ ["-o", SailCompiler.outputFilebase])).stdout
          ++ (env 1 compiler ["-dir"]).stdout,
        stderr := (env 0 compiler (options ++ ["-o", SailCompiler.outputFilebase])).stderr
          ++ (env 1 compiler ["-dir"]).stderr,
        buildsteps := [StepResult.ofRaw "Sail to C"
            (env 0 compiler (options ++ ["-o", SailCompiler.outputFilebase])),
          StepResult.ofRaw "Get Sail dir" (env 1 compiler ["-dir"])],
        inputFilename := inputFilename,
        executableFilename := some (inputFilename ++ ".exe") } := by
  simp only [SailCompiler.runCompiler, doBuildstepAndAddToResult, StepResult.ofRaw,
    List.length_nil, List.nil_append, Bool.false_or, h0, hb]
  simp [h0, hb, h1]

/-- If the Sail-to-C step succeeds, binary output is requested, and the
directory probe succeeds, the run performs all three steps. -/
lemma sail_runCompiler_run3 (env : ExecEnv) (compiler : String)
    (options : List String) (inputFilename : String)
    (filters : Option ParseFiltersAndOutputOptions)
    (h0 : (env 0 compiler (options ++ ["-o", SailCompiler.outputFilebase])).code = 0)
    (hb : binaryRequested filters = true)
    (h1 : (env 1 compiler ["-dir"]).code = 0) :
    SailCompiler.runCompiler env compiler options inputFilename filters =
      { code := if (env 2 "cc" (SailCompiler.ccArgs
                  ((String.intercalate "\n" (env 1 compiler ["-dir"]).stdout).trim))).code ≠ 0
                then (env 2 "cc" (SailCompiler.ccArgs
                  ((String.intercalate "\n" (env 1 compiler ["-dir"]).stdout).trim))).code
                else 0,
        timedOut := (env 0 compiler (options ++ ["-o", SailCompiler.outputFilebase])).timedOut
          || (env 1 compiler ["-dir"]).timedOut
          || (env 2 "cc" (SailCompiler.ccArgs
              ((String.intercalate "\n" (env 1 compiler ["-dir"]).stdout).trim))).timedOut,
        stdout := (env 0 compiler (options ++ ["-o", SailCompiler.outputFilebase])).stdout
          ++ (env 1 compiler ["-dir"]).stdout
          ++ (env 2 "cc" (SailCompiler.ccArgs
              ((String.intercalate "\n" (env 1 compiler ["-dir"]).stdout).trim))).stdout,
        stderr := (env 0 compiler (options ++ ["-o", SailCompiler.outputFilebase])).stderr
          ++ (env 1 compiler ["-dir"]).stderr
          ++ (env 2 "cc" (SailCompiler.ccArgs
              ((String.intercalate "\n" (env 1 compiler ["-dir"]).stdout).trim))).stderr,
        buildsteps := [StepResult.ofRaw "Sail to C"
            (env 0 compiler (options ++ ["-o", SailCompiler.outputFilebase])),
          StepResult.ofRaw "Get Sail dir" (env 1 compiler ["-dir"]),
          StepResult.ofRaw "C to binary" (env 2 "cc" (SailCompiler.ccArgs
            ((String.intercalate "\n" (env 1 compiler ["-dir"]).stdout).trim)))],
        inputFilename := inputFilename,
        executableFilename := some (inputFilename ++ ".exe") } := by
  simp only [SailCompiler.runCompiler, doBuildstepAndAddToResult, StepResult.ofRaw,
    List.length_nil, List.nil_append, Bool.false_or, h0, hb]
  simp [h0, hb, h1, List.append_assoc]

/-- Coerce the negation of a Bool equation with `true` to the `false`
equation. -/
lemma bool_ne_true_eq_false {b : Bool} (h : ¬b = true) : b = false := by
  cases b
  · rfl
  · exact absurd rfl h

/-! ## Claim theorems: the Sail pipeline -/

/-- Claim C1, counterexample: on a run where the first step succeeds and
binary output is requested but the final `C to binary` step fails (exit
code 1), `executableFilename` is nevertheless set — refuting that it is
set only if the final native-compilation step succeeded. -/
theorem sail_executableFilename_set_despite_cc_failure :
    (SailCompiler.runCompiler envStep3Fails "sail" [] "test.sail"
        (some { binary := some true })).buildsteps.map
        (fun s => (s.step, s.code)) =
      [("Sail to C", 0), ("Get Sail dir", 0), ("C to binary", 1)] ∧
    (SailCompiler.runCompiler envStep3Fails "sail" [] "test.sail"
        (some { binary := some true })).executableFilename = some "test.sail.exe" ∧
    (SailCompiler.runCompiler envStep3Fails "sail" [] "test.sail"
        (some { binary := some true })).code = 1 := by
  exact ⟨by decide, by decide, by decide⟩

/-- Claim C1, amended: `executableFilename` is set (to the input filename
with `.exe` appended) if and only if the first step (`Sail to C`) exited
with code 0 and binary output was requested; it is assigned before the
remaining steps run and stays set even when `Get Sail dir` or
`C to binary` fails. -/
theorem sail_executableFilename_iff_first_step_ok (env : ExecEnv)
    (compiler : String) (options : List String) (inputFilename : String)
    (filters : Option ParseFiltersAndOutputOptions) :
    (SailCompiler.runCompiler env compiler options inputFilename filters).executableFilename =
      if (env 0 compiler (options ++ ["-o", SailCompiler.outputFilebase])).code = 0 ∧
          binaryRequested filters = true
      then some (inputFilename ++ ".exe") else none := by
  by_cases h0 : (env 0 compiler (options ++ ["-o", SailCompiler.outputFilebase])).code = 0
  · by_cases hb : binaryRequested filters = true
    · by_cases h1 : (env 1 compiler ["-dir"]).code = 0
      · rw [sail_runCompiler_run3 env compiler options inputFilename filters h0 hb h1]
        simp [h0, hb]
      · rw [sail_runCompiler_stop2 env compiler options inputFilename filters h0 hb h1]
        simp [h0, hb]
    · rw [sail_runCompiler_stop1 env compiler options inputFilename filters
        (Or.inr (bool_ne_true_eq_false hb))]
      simp [hb]
  · rw [sail_runCompiler_stop1 env compiler options inputFilename filters (Or.inl h0)]
    simp [h0]

/-- Claim C2: if the step at index `i` of the recorded buildsteps exited
with a non-zero code, the pipeline ran exactly the steps up to and
including it (`buildsteps` has length `i + 1`) and the overall exit code
is non-zero. -/
theorem sail_failing_step_halts_pipeline (env : ExecEnv) (compiler : String)
    (options : List String) (inputFilename : String)
    (filters : Option ParseFiltersAndOutputOptions) (i : Nat)
    (hfail : ((SailCompiler.runCompiler env compiler options inputFilename
        filters).buildsteps.getD i
        { step := "", code := 0, stdout := [], stderr := [], timedOut := false }).code ≠ 0) :
    (SailCompiler.runCompiler env compiler options inputFilename filters).buildsteps.length
        = i + 1 ∧
    (SailCompiler.runCompiler env compiler options inputFilename filters).code ≠ 0 := by
  by_cases h0 : (env 0 compiler (options ++ ["-o", SailCompiler.outputFilebase])).code = 0
  · by_cases hb : binaryRequested filters = true
    · by_cases h1 : (env 1 compiler ["-dir"]).code = 0
      · rw [sail_runCompiler_run3 env compiler options inputFilename filters h0 hb h1] at hfail ⊢
        match i with
        | 0 => simp [List.getD, StepResult.ofRaw, h0] at hfail
        | 1 => simp [List.getD, StepResult.ofRaw, h1] at hfail
        | 2 =>
          simp only [List.getD, List.get?, StepResult.ofRaw] at hfail
          refine ⟨rfl, ?_⟩
          simpa [hfail] using hfail
        | n + 3 => simp [List.getD] at hfail
      · rw [sail_runCompiler_stop2 env compiler options inputFilename filters h0 hb h1] at hfail ⊢
        match i with
        | 0 => simp [List.getD, StepResult.ofRaw, h0] at hfail
        | 1 => exact ⟨rfl, h1⟩
        | n + 2 => simp [List.getD] at hfail
    · rw [sail_runCompiler_stop1 env compiler options inputFilename filters
        (Or.inr (bool_ne_true_eq_false hb))] at hfail ⊢
      match i with
      | 0 =>
        simp only [List.getD, List.get?, StepResult.ofRaw] at hfail
        refine ⟨rfl, ?_⟩
        simpa [hfail] using hfail
      | n + 1 => simp [List.getD] at hfail
  · rw [sail_runCompiler_stop1 env compiler options inputFilename filters (Or.inl h0)] at hfail ⊢
    match i with
    | 0 =>
      simp only [List.getD, List.get?, StepResult.ofRaw] at hfail
      refine ⟨rfl, ?_⟩
      simpa [hfail] using hfail
    | n + 1 => simp [List.getD] at hfail

/-- Witness for claim C2: on the oracle where the probe step (index 1)
exits with code 7, the pipeline records exactly two steps and the overall
exit code is non-zero. -/
theorem sail_failing_step_halts_pipeline_witness :
    (SailCompiler.runCompiler envStep2Fails "sail" [] "test.sail"
        (some { binary := some true })).buildsteps.length = 1 + 1 ∧
    (SailCompiler.runCompiler envStep2Fails "sail" [] "test.sail"
        (some { binary := some true })).code ≠ 0 :=
  sail_failing_step_halts_pipeline envStep2Fails "sail" [] "test.sail"
    (some { binary := some true }) 1 (by decide)

/-- Claim C6: when the `Sail to C` step exits with code 0 and binary
output is not requested, the run stops successfully after that single
step: one recorded StepResult, overall exit code 0, and no
`executableFilename`. -/
theorem sail_no_binary_stops_after_first_step (env : ExecEnv)
    (compiler : String) (options : List String) (inputFilename : String)
    (filters : Option ParseFiltersAndOutputOptions)
    (h0 : (env 0 compiler (options ++ ["-o", SailCompiler.outputFilebase])).code = 0)
    (hb : binaryRequested filters = false) :
    (SailCompiler.runCompiler env compiler options inputFilename
        filters).buildsteps.map StepResult.step = ["Sail to C"] ∧
    (SailCompiler.runCompiler env compiler options inputFilename filters).code = 0 ∧
    (SailCompiler.runCompiler env compiler options inputFilename
        filters).executableFilename = none := by
  rw [sail_runCompiler_stop1 env compiler options inputFilename filters (Or.inr hb)]
  simp [StepResult.ofRaw, h0]

/-- Witness for claim C6: a concrete run with no filters on an
all-succeeding oracle stops after the `Sail to C` step. -/
theorem sail_no_binary_stops_after_first_step_witness :
    (SailCompiler.runCompiler envAllSucceed "sail" [] "test.sail"
        none).buildsteps.map StepResult.step = ["Sail to C"] ∧
    (SailCompiler.runCompiler envAllSucceed "sail" [] "test.sail" none).code = 0 ∧
    (SailCompiler.runCompiler envAllSucceed "sail" [] "test.sail"
        none).executableFilename = none :=
  sail_no_binary_stops_after_first_step envAllSucceed "sail" [] "test.sail" none rfl rfl

/-- Claim C7: the output-path resolvers are pure functions — the same
(directory, base name) always yields the same path, namely the joined
path with suffix `.c` for the intermediate artifact and `.exe` for the
executable. -/
theorem sail_output_resolvers_pure (dirPath : String) (outputFilebase : String) :
    SailCompiler.getOutputFilename dirPath outputFilebase
        = SailCompiler.getOutputFilename dirPath outputFilebase ∧
    SailCompiler.getExecutableFilename dirPath outputFilebase
        = SailCompiler.getExecutableFilename dirPath outputFilebase ∧
    SailCompiler.getOutputFilename dirPath outputFilebase
        = SailCompiler.pathJoin dirPath (outputFilebase ++ ".c") ∧
    SailCompiler.getExecutableFilename dirPath outputFilebase
        = SailCompiler.pathJoin dirPath (outputFilebase ++ ".exe") :=
  ⟨rfl, rfl, rfl, rfl⟩

/-- Claim C8: the Sail variant suppresses the library-path argument
convention entirely — for every input the shared-library argument list is
empty. -/
theorem sail_shared_library_args_empty (libraries : List SailCompiler.SelectedLibraryVersion)
    (libDownloadPath : Option String) (toolchainPath : Option String) (dirPath : String) :
    SailCompiler.getSharedLibraryPathsAsArguments libraries libDownloadPath
      toolchainPath dirPath = [] :=
  rfl

/-! ## Claim theorems: the Kotlin execution adapter -/

/-- Claim C3: when the cached build obtained from the memoizer exited with
a non-zero code, `handleInterpreting` never calls `runExecutable`, and —
whenever the build carries its directory, as the source asserts — returns
the `didExecute := false` result carrying the build's stdout, stderr and
exit code (a missing directory instead trips the assertion, still without
spawning). -/
theorem kotlin_failed_build_never_executes (env : InterpEnv) (key : CacheKey)
    (executeArgs : List String) (b : CachedBuild)
    (hb : env.getOrBuildExecutable { key with options := KotlinCompiler.packagingOptions }
        BypassCache.noBypass (env.getExecutableHash key) = b)
    (hfail : b.code ≠ 0) :
    (KotlinCompiler.handleInterpreting env key executeArgs).spawned = none ∧
    (KotlinCompiler.handleInterpreting env key executeArgs).result =
      (match b.dirPath with
       | none => Except.error "assertion failed: compileResult.dirPath !== undefined"
       | some _ => Except.ok
          { stdout := b.stdout, stderr := b.stderr, code := b.code,
            didExecute := false, buildResult := b, timedOut := false }) := by
  simp only [KotlinCompiler.handleInterpreting, hb]
  rcases hd : b.dirPath with _ | d
  · exact ⟨rfl, rfl⟩
  · simp [hfail]

/-- Witness for claim C3: against an oracle whose cached build failed with
exit code 1, the concrete call spawns nothing and surfaces the build's
output with `didExecute := false`. -/
theorem kotlin_failed_build_never_executes_witness :
    (KotlinCompiler.handleInterpreting interpEnvFailedBuild sampleKey
        ["arg1"]).spawned = none ∧
    (KotlinCompiler.handleInterpreting interpEnvFailedBuild sampleKey
        ["arg1"]).result =
      Except.ok
        { stdout := ["build out"],
          stderr := ["build err"],
          code := 1,
          didExecute := false,
          buildResult :=
            { code := 1,
              stdout := ["build out"],
              stderr := ["build err"],
              dirPath := some "/tmp/build" },
          timedOut := false } :=
  kotlin_failed_build_never_executes interpEnvFailedBuild sampleKey ["arg1"]
    { code := 1,
      stdout := ["build out"],
      stderr := ["build err"],
      dirPath := some "/tmp/build" }
    rfl (by decide)

/-- Claim C4: on a successful cached build, the argument list handed to
the runtime is exactly the runtime-tuning arguments, then the classpath,
then `-jar example.jar` as the last arguments before the user-supplied
program arguments. -/
theorem kotlin_runtime_argument_order (env : InterpEnv) (key : CacheKey)
    (executeArgs : List String) (b : CachedBuild) (d : String)
    (hb : env.getOrBuildExecutable { key with options := KotlinCompiler.packagingOptions }
        BypassCache.noBypass (env.getExecutableHash key) = b)
    (hok : b.code = 0) (hd : b.dirPath = some d) :
    (KotlinCompiler.handleInterpreting env key executeArgs).spawned =
      some { args := (KotlinCompiler.javaTuningArgs ++ ["-cp", d]
               ++ ["-jar", "example.jar"] ++ executeArgs),
             dirPath := d } := by
  simp only [KotlinCompiler.handleInterpreting, hb, hd]
  simp [hok]

/-- Witness for claim C4: a concrete successful build with two
user-supplied program arguments yields exactly the tuning flags, the
classpath, `-jar example.jar`, then the two user arguments. -/
theorem kotlin_runtime_argument_order_witness :
    (KotlinCompiler.handleInterpreting interpEnvGoodBuild sampleKey
        ["userArg1", "userArg2"]).spawned =
      some { args := (KotlinCompiler.javaTuningArgs ++ ["-cp", "/tmp/build"]
               ++ ["-jar", "example.jar"] ++ ["userArg1", "userArg2"]),
             dirPath := "/tmp/build" } :=
  kotlin_runtime_argument_order interpEnvGoodBuild sampleKey
    ["userArg1", "userArg2"]
    { code := 0, stdout := [], stderr := [], dirPath := some "/tmp/build" }
    "/tmp/build" rfl rfl rfl

/-- Claim C5: the key handed to the memoizer is the caller's key altered
so that its options are exactly the packaging options
`-include-runtime -d example.jar`; the caller's non-packaging option list
is replaced, never silently kept as a default. -/
theorem kotlin_memo_key_encodes_packaging (env : InterpEnv) (key : CacheKey)
    (executeArgs : List String) :
    (KotlinCompiler.handleInterpreting env key executeArgs).memoKey =
      { key with options := KotlinCompiler.packagingOptions } ∧
    KotlinCompiler.packagingOptions = ["-include-runtime", "-d", "example.jar"] := by
  refine ⟨?_, rfl⟩
  simp only [KotlinCompiler.handleInterpreting]
  rcases hd : (env.getOrBuildExecutable { key with options := KotlinCompiler.packagingOptions }
      BypassCache.noBypass (env.getExecutableHash key)).dirPath with _ | d
  · rfl
  · by_cases hc : (env.getOrBuildExecutable { key with options := KotlinCompiler.packagingOptions }
        BypassCache.noBypass (env.getExecutableHash key)).code ≠ 0
    · simp [hc]
    · simp [hc]

/-! ## Claim theorems: the executable memoizer -/

/-- Claim C9: two requests to the memoizer with equal compilation keys —
modelled as overlapping requests reaching the promise-sharing table in
sequence — observe the same cached build and trigger at most one
underlying build between them. -/
theorem memoizer_single_flight (build : CacheKey → CachedBuild)
    (m : Memoizer) (k1 : CacheKey) (k2 : CacheKey) (hk : k1 = k2) :
    ((m.getOrBuild build k1).1.getOrBuild build k2).2 = (m.getOrBuild build k1).2 ∧
    ((m.getOrBuild build k1).1.getOrBuild build k2).1.builds ≤ m.builds + 1 := by
  subst hk
  rcases h : m.table.lookup k1 with _ | cached
  · simp [Memoizer.getOrBuild, h, List.lookup]
  · simp [Memoizer.getOrBuild, h]

/-- Witness for claim C9: two concrete requests with the same sample key
against an empty table share one build. -/
theorem memoizer_single_flight_witness :
    ((Memoizer.getOrBuild sampleFailedBuild { table := [], builds := 0 }
          sampleKey).1.getOrBuild sampleFailedBuild sampleKey).2 =
      (Memoizer.getOrBuild sampleFailedBuild { table := [], builds := 0 }
          sampleKey).2 ∧
    ((Memoizer.getOrBuild sampleFailedBuild { table := [], builds := 0 }
          sampleKey).1.getOrBuild sampleFailedBuild sampleKey).1.builds ≤ 0 + 1 :=
  memoizer_single_flight sampleFailedBuild { table := [], builds := 0 }
    sampleKey sampleKey rfl

/-! ## Claim theorems: the Kotlin user-option extraction -/

/-- The function `jsFindIndex` is `-1` on a list with no match. -/
lemma jsFindIndex_eq_neg_one (p : String → Bool) :
    ∀ l : List String, (∀ o ∈ l, p o = false) → KotlinCompiler.jsFindIndex p l = -1 := by
  intro l
  induction l with
  | nil => intro _; rfl
  | cons x xs ih =>
    intro h
    have hx : p x = false := h x (by simp)
    have hxs := ih (fun o ho => h o (by simp [ho]))
    simp [KotlinCompiler.jsFindIndex, hx, hxs]

/-- The function `jsFindIndex` returns the length of the prefix before
the first match. -/
lemma jsFindIndex_first_match (p : String → Bool) :
    ∀ (pre : List String) (x : String) (post : List String),
      (∀ o ∈ pre, p o = false) → p x = true →
      KotlinCompiler.jsFindIndex p (pre ++ x :: post) = (pre.length : Int) := by
  intro pre
  induction pre with
  | nil =>
    intro x post _ hx
    simp [KotlinCompiler.jsFindIndex, hx]
  | cons a pre ih =>
    intro x post hpre hx
    have ha : p a = false := hpre a (by simp)
    have hrec := ih x post (fun o ho => hpre o (by simp [ho])) hx
    have hnonneg : ¬KotlinCompiler.jsFindIndex p (pre ++ x :: post) < 0 := by
      rw [hrec]; omega
    simp [KotlinCompiler.jsFindIndex, ha, hnonneg, hrec]

/-- Claim C10: the user options extracted by `KotlinCompiler.runCompiler`
are exactly the prefix of the options strictly before the first element
ending in `.kt`; when no element ends in `.kt`, the last element of the
options list is silently dropped (`findIndex` yields `-1` and
`slice(0, -1)` removes the final element). -/
theorem kotlin_userOptions_split (options : List String) :
    (∀ (pre : List String) (x : String) (post : List String),
      options = pre ++ x :: post →
      (∀ o ∈ pre, KotlinCompiler.jsEndsWith o ".kt" = false) → KotlinCompiler.jsEndsWith x ".kt" = true →
      KotlinCompiler.userOptions options = pre) ∧
    ((∀ o ∈ options, KotlinCompiler.jsEndsWith o ".kt" = false) →
      KotlinCompiler.userOptions options = options.dropLast) := by
  constructor
  · intro pre x post hsplit hpre hx
    subst hsplit
    rw [KotlinCompiler.userOptions,
      jsFindIndex_first_match (fun option => KotlinCompiler.jsEndsWith option ".kt") pre x post hpre hx]
    simp only [KotlinCompiler.jsSlice, KotlinCompiler.jsSliceBound]
    have hle : pre.length ≤ (pre ++ x :: post).length := by
      simp [List.length_append]
    have h1 : ¬((pre.length : Int) < 0) := by omega
    have h2 : ¬((0 : Int) < 0) := by omega
    simp only [if_neg h1, if_neg h2, Int.toNat_natCast, Int.toNat_zero,
      Nat.min_eq_left hle, Nat.zero_min, List.drop_zero]
    exact List.take_left pre (x :: post)
  · intro h
    rw [KotlinCompiler.userOptions, jsFindIndex_eq_neg_one _ options h]
    simp only [KotlinCompiler.jsSlice, KotlinCompiler.jsSliceBound]
    norm_num
    rw [List.dropLast_eq_take]
    congr 1
    omega

/-- Witness for claim C10: with a `.kt` element present the options
before it are kept; with none present the final option is dropped. -/
theorem kotlin_userOptions_split_witness :
    KotlinCompiler.userOptions ["-opt1", "-opt2", "example.kt", "tail"]
      = ["-opt1", "-opt2"] ∧
    KotlinCompiler.userOptions ["-opt1", "-opt2", "-opt3"] = ["-opt1", "-opt2"] :=
  ⟨(kotlin_userOptions_split ["-opt1", "-opt2", "example.kt", "tail"]).1
      ["-opt1", "-opt2"] "example.kt" ["tail"] rfl (by decide) (by decide),
    by
      have h := (kotlin_userOptions_split ["-opt1", "-opt2", "-opt3"]).2 (by decide)
      simpa using h⟩
